import Mathlib
set_option autoImplicit false
/-!
Shallow embedding of `src/weather_alert_bot.py` (airport weather peak-temperature
alert bot) and proofs about its change detection, forecast reduction, historical
enrichment and message composition.

Conventions of the embedding:
* Python floats are embedded as exact rationals (`ℚ`); decimal literals of the
  source become the corresponding rationals.
* Fallible code (functions returning `None` on failure, or whose body is wrapped
  in `try/except`) is embedded with `Option`; an uncaught exception inside a
  `try` block is the `none` of the enclosing function.
* Network calls are parameters: a lookup function of type `… → Option …` stands
  for the fetch (with its retries already absorbed), `none` meaning the fetch
  failed after all retries.
* The ambient clock is a parameter: the formatted "now" strings and the current
  date string are passed in.
-/

/-- Reason codes of the notification decision taken inside
`check_and_send_alerts` (the code logs them as print lines; the spec calls them
`NotificationDecision` reason codes). -/
inductive Reason where
  | forced
  | newDay
  | tempDelta
  | firstObs
  | noChange
deriving DecidableEq, Repr

/-- The persisted state as handled by `load_state` / `save_state`: a JSON object
with one map from airport name to its last max temperature (an entry's value
may itself be null) and a single `last_check_date` field (possibly null). -/
structure BotState where
  last_max_temps : List (String × Option ℚ)
  last_check_date : Option String
deriving DecidableEq, Repr

/-- Python `dict.get(k)`: `none` when the key is absent, first binding wins. -/
def dictGet {α : Type} (l : List (String × α)) (k : String) : Option α :=
  match l with
  | [] => none
  | (k₁, v) :: rest => if k₁ = k then some v else dictGet rest k

/-- `last_max_temps.get(airport)` flattened: the code treats an absent key and a
null value the same way (`is not None` test), so both become `none`. -/
def lookupTemp (m : List (String × Option ℚ)) (a : String) : Option ℚ :=
  (dictGet m a).bind id

/-- `is_new_day = (last_check_date != current_date)` (line 1457); a null
`last_check_date` compares unequal to any date string. -/
def is_new_day (st : BotState) (current_date : String) : Bool :=
  decide (st.last_check_date ≠ some current_date)

/-- The per-location notification decision of `check_and_send_alerts`
(lines 1576–1598): forced send, else new day, else (when a last temperature is
present) temperature delta strictly above 0.1, else first run. -/
def shouldSend (force_send : Bool) (new_day : Bool) (last_temp : Option ℚ)
    (max_temp : ℚ) : Bool × Reason :=
  if force_send then (true, Reason.forced)
  else if new_day then (true, Reason.newDay)
  else
    match last_temp with
    | some lt =>
        if |max_temp - lt| > 1/10 then (true, Reason.tempDelta)
        else (false, Reason.noChange)
    | none => (true, Reason.firstObs)

/-- One airport's evaluation inside the loop of `check_and_send_alerts`.
`outcome a` models `get_weather_forecast` followed by `get_today_max_temp`
(`none` when either failed, after the retries; such an airport is skipped by
`continue`). On success it returns today's peak and the decision. -/
def processLocation (force_send : Bool) (st : BotState) (current_date : String)
    (outcome : String → Option ℚ) (a : String) : Option (ℚ × Bool × Reason) :=
  (outcome a).map fun t =>
    (t, shouldSend force_send (is_new_day st current_date)
          (lookupTemp st.last_max_temps a) t)

/-- The whole run `check_and_send_alerts`: evaluate every airport in order
(collecting, for the successful ones, peak and decision), then build the new
persisted state: `current_max_temps` has an entry exactly for the airports
whose lookup succeeded, and the single `last_check_date` becomes today.  The
old state is replaced wholesale (lines 1624–1629). -/
def check_and_send_alerts (airports : List String) (outcome : String → Option ℚ)
    (st : BotState) (current_date : String) (force_send : Bool) :
    List (String × ℚ × Bool × Reason) × BotState :=
  (airports.filterMap fun a =>
      (processLocation force_send st current_date outcome a).map fun r => (a, r),
   { last_max_temps := airports.filterMap fun a =>
       (outcome a).map fun t => (a, some t),
     last_check_date := some current_date })

/-- Python `s.startswith(pre)`; character-list based. -/
def startswith (s pre : String) : Bool :=
  pre.toList.isPrefixOf s.toList

/-- The day-filtering loop shared by `get_today_max_temp` (lines 580–586) and
`get_historical_temp_range` (lines 385–391): walk the time array and, for every
timestamp of the target day, read the temperature at the same index, skipping
nulls.  The source indexes the temperature array without a bounds check there,
so an index past its end raises `IndexError`, caught only by the enclosing
`try`; that exception is the `none` result here. -/
def collectDay (day : String) : List String → List (Option ℚ) → Option (List ℚ)
  | [], _ => some []
  | s :: ss, [] =>
      if startswith s day then none else collectDay day ss []
  | s :: ss, t :: ts =>
      if startswith s day then
        (collectDay day ss ts).map fun rest => t.elim rest (fun v => v :: rest)
      else collectDay day ss ts

/-- Python `max` over a list of rationals; the source only applies it to
nonempty lists (emptiness is guarded first), `0` pads the impossible case. -/
def maxOfList : List ℚ → ℚ
  | [] => 0
  | a :: as => as.foldl max a

/-- `get_today_max_temp` (lines 558–595): the peak among the target day's
non-null temperature samples; `none` when either array is empty, when no
non-null sample matches the day, or when the unguarded indexing raises. -/
def get_today_max_temp (times : List String) (temperatures : List (Option ℚ))
    (today : String) : Option ℚ :=
  if times = [] ∨ temperatures = [] then none
  else
    match collectDay today times temperatures with
    | none => none
    | some [] => none
    | some ts => some (maxOfList ts)

/-- Spec-side day restriction (from the spec's words): the non-missing
temperature samples whose timestamps fall on the given day, reading the series
as aligned parallel arrays. -/
def specDayTemps (day : String) (times : List String)
    (temps : List (Option ℚ)) : List ℚ :=
  (times.zip temps).filterMap fun p => if startswith p.1 day then p.2 else none

/-- The hour of `datetime.strptime(t, "%Y-%m-%dT%H:%M").hour`: the two digits
at positions 11–12 of the timestamp.  `none` stands for the `ValueError` of an
unparsable timestamp (the date part was already fixed by the day-prefix
filter, so we only validate the hour digits). -/
def hourOf (s : String) : Option ℕ :=
  match s.toList.drop 11 with
  | c₁ :: c₂ :: _ =>
      if c₁.isDigit && c₂.isDigit then
        if (c₁.toNat - 48) * 10 + (c₂.toNat - 48) < 24 then
          some ((c₁.toNat - 48) * 10 + (c₂.toNat - 48))
        else none
      else none
  | _ => none

/-- The fixed snow condition-code list of the source: `[71, 73, 75, 77, 85, 86]`. -/
def snowCodes : List ℤ := [71, 73, 75, 77, 85, 86]

/-- `item['weathercode'] in [71, 73, 75, 77, 85, 86]`; a null code is not in
the list, hence classified rain. -/
def isSnowCode (c : Option ℤ) : Bool :=
  match c with
  | some v => snowCodes.contains v
  | none => false

/-- One hourly sample of the target day, as assembled in lines 441–462: present
only when the temperature is non-null; a null precipitation has already been
defaulted to 0 at construction. -/
structure Item where
  time : String
  temp : ℚ
  wind_direction : Option ℚ
  wind_speed : Option ℚ
  wind_gust : Option ℚ
  precipitation : ℚ
  weathercode : Option ℤ
  cloudcover : Option ℚ
deriving DecidableEq, Repr

/-- `xs[i] if i < len(xs) else None`, flattened with the JSON null inside: the
head of the list that has been advanced `i` steps, when present. -/
def optHead {α : Type} (l : List (Option α)) : Option α :=
  l.head?.bind id

/-- The `today_data` assembly loop (lines 441–462), advancing all parallel
arrays in lockstep: a timestamp of the target day yields an item when its
temperature is non-null; every other field is guarded (`None` past the end of
its array). -/
def buildItems (today : String) : List String → List (Option ℚ) → List (Option ℚ) →
    List (Option ℚ) → List (Option ℚ) → List (Option ℚ) → List (Option ℤ) →
    List (Option ℚ) → List Item
  | [], _, _, _, _, _, _, _ => []
  | s :: ss, temps, dirs, speeds, gusts, precs, codes, covers =>
      let rest := buildItems today ss temps.tail dirs.tail speeds.tail gusts.tail
          precs.tail codes.tail covers.tail
      if startswith s today then
        match optHead temps with
        | some tv =>
            { time := s, temp := tv, wind_direction := optHead dirs,
              wind_speed := optHead speeds, wind_gust := optHead gusts,
              precipitation := (optHead precs).getD 0,
              weathercode := optHead codes, cloudcover := optHead covers } :: rest
        | none => rest
      else rest

/-- A precipitation interval (`current_period` dict of the source); the
rain/snow classification string (`'雨'`/`'雪'`) is embedded as a boolean. -/
structure Period where
  start_hour : ℕ
  end_hour : ℕ
  is_snow : Bool
  max_precip : ℚ
deriving DecidableEq, Repr

/-- The precipitation-interval scan (lines 489–522), carrying the source
loop's `precipitation_periods`/`current_period` state.  `none` is the
`ValueError` of `strptime` on an unparsable timestamp of a precipitating
sample (caught only by the enclosing `try`). -/
def periodsLoop (out : List Period) (cur : Option Period) :
    List Item → Option (List Period)
  | [] => some (out ++ cur.toList)
  | it :: rest =>
      if 0 < it.precipitation then
        match hourOf it.time with
        | none => none
        | some h =>
            match cur with
            | none =>
                periodsLoop out
                  (some ⟨h, h, isSnowCode it.weathercode, it.precipitation⟩) rest
            | some c =>
                if c.is_snow = isSnowCode it.weathercode ∧ h = c.end_hour + 1 then
                  periodsLoop out
                    (some ⟨c.start_hour, h, c.is_snow,
                      max c.max_precip it.precipitation⟩) rest
                else
                  periodsLoop (out ++ [c])
                    (some ⟨h, h, isSnowCode it.weathercode, it.precipitation⟩) rest
      else periodsLoop out cur rest

/-- The `precipitation_periods` computation of `get_today_weather_details`. -/
def precipitation_periods (l : List Item) : Option (List Period) :=
  periodsLoop [] none l

/-- Spec-side view of one precipitating sample: resolved hour, snow/rain
classification and intensity. -/
structure PH where
  hour : ℕ
  snow : Bool
  precip : ℚ
deriving DecidableEq, Repr

/-- Projection of an item to its spec-side precipitating-sample view; `none`
when the timestamp's hour cannot be resolved. -/
def toPH (it : Item) : Option PH :=
  (hourOf it.time).map fun h =>
    { hour := h, snow := isSnowCode it.weathercode, precip := it.precipitation }

/-- Spec-side interval builder (from the spec's words), over the already
filtered and classified samples: merge runs of consecutive hours of one
classification, tracking the maximal intensity; a classification change or an
hour gap closes the current interval and starts a new one. -/
def specMerge (cur : Option Period) : List PH → List Period
  | [] => cur.toList
  | b :: rest =>
      match cur with
      | none => specMerge (some ⟨b.hour, b.hour, b.snow, b.precip⟩) rest
      | some c =>
          if c.is_snow = b.snow ∧ b.hour = c.end_hour + 1 then
            specMerge (some ⟨c.start_hour, b.hour, c.is_snow,
              max c.max_precip b.precip⟩) rest
          else
            c :: specMerge (some ⟨b.hour, b.hour, b.snow, b.precip⟩) rest

/-- Spec-side precipitation intervals of a run of samples. -/
def specIntervals (l : List PH) : List Period := specMerge none l

/-- `valid_wind_data` (lines 471–473): the (direction, speed) pairs of the
day's items that carry both fields. -/
def validWindData (l : List Item) : List (ℚ × ℚ) :=
  l.filterMap fun it =>
    match it.wind_direction, it.wind_speed with
    | some d, some sp => some (d, sp)
    | _, _ => none

/-- The wind-speed sample of an item that also carries a direction (the only
speeds the source averages). -/
def windPairSpeed (it : Item) : Option ℚ :=
  match it.wind_direction, it.wind_speed with
  | some _, some sp => some sp
  | _, _ => none

/-- Python `sum` over rationals. -/
def sumList (l : List ℚ) : ℚ := l.foldl (fun a b => a + b) 0

/-- Python float `x % 360` (result in `[0, 360)` for positive modulus). -/
def qmod360 (x : ℚ) : ℚ := x - 360 * ⌊x / 360⌋

/-- The WMO condition-code table of `get_weathercode_description`. -/
def weather_codes : List (ℤ × String) :=
  [(0, "晴天"), (1, "大部分晴天"), (2, "部分多云"), (3, "阴天"),
   (45, "雾"), (48, "沉积霜雾"),
   (51, "小雨"), (53, "中雨"), (55, "大雨"), (56, "冻雨（小雨）"), (57, "冻雨（大雨）"),
   (61, "小雨"), (63, "中雨"), (65, "大雨"), (66, "冻雨"), (67, "冻雨"),
   (71, "小雪"), (73, "中雪"), (75, "大雪"), (77, "雪粒"),
   (80, "小阵雨"), (81, "中阵雨"), (82, "大阵雨"), (85, "小阵雪"), (86, "大阵雪"),
   (95, "雷暴"), (96, "雷暴伴冰雹"), (99, "雷暴伴大冰雹")]

/-- `get_weathercode_description` (lines 168–208): table lookup with default. -/
def get_weathercode_description (c : ℤ) : String :=
  (weather_codes.lookup c).getD "未知"

/-- One step of the `weather_conditions` dict build: increment a key's count,
inserting it at the end on first sight (Python dict insertion order). -/
def bumpCount (l : List (String × ℕ)) (k : String) : List (String × ℕ) :=
  match l with
  | [] => [(k, 1)]
  | (k₁, n) :: rest =>
      if k₁ = k then (k₁, n + 1) :: rest else (k₁, n) :: bumpCount rest k

/-- The `weather_conditions` counting dict (lines 525–529), keyed by
description string (distinct codes with one description share a count). -/
def weatherCounts (l : List Item) : List (String × ℕ) :=
  l.foldl (fun acc it =>
    match it.weathercode with
    | some c => bumpCount acc (get_weathercode_description c)
    | none => acc) []

/-- `max(weather_conditions.items(), key=count)[0]` with Python `max` keeping
the first maximal entry, or the default for an empty dict (line 531). -/
def pickMostCommon (l : List (String × ℕ)) : String :=
  match l with
  | [] => "未知"
  | x :: xs => (xs.foldl (fun b a => if b.2 < a.2 then a else b) x).1

/-- The summary record produced by `get_today_weather_details`. -/
structure Details where
  max_temp : ℚ
  wind_direction : Option ℚ
  wind_speed : ℚ
  max_gust : ℚ
  cloudcover : ℚ
  precipitation_periods : List Period
  weather_condition : String
deriving DecidableEq, Repr

/-- `get_today_weather_details` (lines 411–555).  The circular wind mean runs
through transcendental functions, so the sine, cosine (of an angle in degrees)
and degree-valued atan2 are parameters; they only feed the `wind_direction`
field, everything else is closed-form rational arithmetic. -/
def get_today_weather_details (sind cosd : ℚ → ℚ) (atan2deg : ℚ → ℚ → ℚ)
    (times : List String) (temps dirs speeds gusts precs : List (Option ℚ))
    (codes : List (Option ℤ)) (covers : List (Option ℚ)) (today : String) :
    Option Details :=
  if times = [] ∨ temps = [] then none
  else
    let td := buildItems today times temps dirs speeds gusts precs codes covers
    if td = [] then none
    else
      match precipitation_periods td with
      | none => none
      | some periods =>
          let vw := validWindData td
          let vg := td.filterMap Item.wind_gust
          let vc := td.filterMap Item.cloudcover
          some { max_temp := maxOfList (td.map Item.temp),
                 wind_direction := if vw = [] then none else
                   some (qmod360 (atan2deg
                     (sumList (vw.map fun p => p.2 * sind p.1))
                     (sumList (vw.map fun p => p.2 * cosd p.1)))),
                 wind_speed := if vw = [] then 0 else
                   sumList (vw.map Prod.snd) / (vw.length : ℚ),
                 max_gust := if vg = [] then 0 else maxOfList vg,
                 cloudcover := if vc = [] then 0 else sumList vc / (vc.length : ℚ),
                 precipitation_periods := periods,
                 weather_condition := pickMostCommon (weatherCounts td) }

/-- Spec-side average wind speed (from the spec's words): the arithmetic mean
of all non-missing wind-speed samples of the day, zero when there are none. -/
def specAvgWindSpeed (day : String) (times : List String)
    (speeds : List (Option ℚ)) : ℚ :=
  let ds := (times.zip speeds).filterMap fun p =>
    if startswith p.1 day then p.2 else none
  if ds = [] then 0 else sumList ds / (ds.length : ℚ)

/-- `celsius_to_fahrenheit` (line 80). -/
def celsius_to_fahrenheit (celsius : ℚ) : ℚ := celsius * 9 / 5 + 32

/-- `meters_per_second_to_miles_per_hour` (line 85); the source's float literal
`2.237` as an exact rational. -/
def meters_per_second_to_miles_per_hour (mps : ℚ) : ℚ := mps * (2237/1000)

/-- Round to the nearest integer, ties to the even one: what CPython's
fixed-precision float formatting does at the digit boundary. -/
def rhe (q : ℚ) : ℤ :=
  if q - ⌊q⌋ < 1/2 then ⌊q⌋
  else if (1:ℚ)/2 < q - ⌊q⌋ then ⌊q⌋ + 1
  else if ⌊q⌋ % 2 = 0 then ⌊q⌋ else ⌊q⌋ + 1

/-- Python `f"{x:.1f}"` on the embedded rational. -/
def formatQ1 (x : ℚ) : String :=
  let n := rhe (x * 10)
  let a := n.natAbs
  let sign := if n < 0 ∨ (n = 0 ∧ x < 0) then "-" else ""
  sign ++ toString (a / 10) ++ "." ++ toString (a % 10)

/-- Python `f"{x:.0f}"` on the embedded rational. -/
def formatQ0 (x : ℚ) : String :=
  let n := rhe x
  let sign := if n < 0 ∨ (n = 0 ∧ x < 0) then "-" else ""
  sign ++ toString n.natAbs

/-- The literal data-unavailable marker of the composer. -/
def availMarker : String := "数据暂不可用"

/-- The max-gust line of `format_temperature_message` (lines 1262–1268):
numeric in miles per hour when the reduced gust is positive, the explicit
marker otherwise. -/
def gustLineHTML (max_gust : ℚ) : String :=
  if 0 < max_gust then
    "\n   • <b>最大阵风:</b> " ++
      formatQ1 (meters_per_second_to_miles_per_hour max_gust) ++ " 英里/小时"
  else "\n   • <b>最大阵风:</b> " ++ availMarker

/-- One year's historical response: the `hourly` arrays of the archive API
(`time` and `temperature_2m`). -/
structure HourlyResp where
  times : List String
  temps : List (Option ℚ)
deriving DecidableEq, Repr

/-- The aggregate returned by `get_historical_temp_range` (lines 400–405). -/
structure HistStats where
  min_temp : ℚ
  max_temp : ℚ
  avg_temp : ℚ
  years_count : ℕ
deriving DecidableEq, Repr

/-- Python `min` over a list of rationals; only applied to nonempty lists. -/
def minOfList : List ℚ → ℚ
  | [] => 0
  | a :: as => as.foldl min a

/-- One iteration of the year loop of `get_historical_temp_range`
(lines 370–395): outer `none` is an uncaught exception (the unguarded indexing
of a matching timestamp past the temperature array), `some none` a skipped
year (failed fetch, empty arrays or no usable sample), `some (some t)` a
contributed yearly peak. -/
def yearStep (dates : ℕ → String) (fetch : ℕ → Option HourlyResp) (k : ℕ) :
    Option (Option ℚ) :=
  match fetch k with
  | none => some none
  | some r =>
      if r.times = [] ∨ r.temps = [] then some none
      else
        match collectDay (dates k) r.times r.temps with
        | none => none
        | some [] => some none
        | some ts => some (some (maxOfList ts))

/-- The year loop itself, accumulating the contributed peaks in order; an
exception in any iteration aborts the whole loop (the single `try` of the
source wraps all years). -/
def histCollect (dates : ℕ → String) (fetch : ℕ → Option HourlyResp) :
    List ℕ → Option (List ℚ)
  | [] => some []
  | k :: ks =>
      match yearStep dates fetch k with
      | none => none
      | some none => histCollect dates fetch ks
      | some (some t) => (histCollect dates fetch ks).map fun rest => t :: rest

/-- `get_historical_temp_range` (lines 352–408) over year offsets `1..years`:
`dates k` is the target date shifted back `k` years (the source's
`target.replace(year=target.year - k)`; the leap-day corner is outside this
model, as the spec leaves it open) and `fetch k` that year's archive lookup
with its retries absorbed. -/
def get_historical_temp_range (dates : ℕ → String)
    (fetch : ℕ → Option HourlyResp) (years : ℕ) : Option HistStats :=
  match histCollect dates fetch ((List.range years).map fun i => i + 1) with
  | none => none
  | some [] => none
  | some temps =>
      some ⟨minOfList temps, maxOfList temps,
        sumList temps / (temps.length : ℚ), temps.length⟩

/-- Spec-side isolated single-year lookup (from the spec's words): fetch the
year's series, restrict to the day, take the peak; absent on any failure or
when no sample is usable.  No year influences another. -/
def specYearPeak (dates : ℕ → String) (fetch : ℕ → Option HourlyResp)
    (k : ℕ) : Option ℚ :=
  match fetch k with
  | none => none
  | some r =>
      if specDayTemps (dates k) r.times r.temps = [] then none
      else some (maxOfList (specDayTemps (dates k) r.times r.temps))

/-- The static fields of one `AIRPORTS` entry that the composer reads. -/
structure AirportInfo where
  code : String
  name_cn : String
  wunderground_code : String
  wunderground_url : String
  windy_url : String
deriving DecidableEq, Repr

/-- The fixed `AIRPORTS` table (lines 33–70), keyed by display name. -/
def AIRPORTS : List (String × AirportInfo) :=
  [("纽约 LGA", ⟨"LGA", "纽约", "KLGA",
      "https://www.wunderground.com/history/daily/us/ny/new-york-city/KLGA",
      "https://www.windy.com/40.775/-73.873?36.855,-73.873,5,p:cities"⟩),
   ("多伦多 YYZ", ⟨"YYZ", "多伦多", "CYYZ",
      "https://www.wunderground.com/history/daily/ca/mississauga/CYYZ",
      "https://www.windy.com/43.678/-79.629?43.231,-79.319,9,p:cities"⟩),
   ("伦敦 LCY", ⟨"LCY", "伦敦", "EGLC",
      "https://www.wunderground.com/history/daily/gb/london/EGLC",
      "https://www.windy.com/51.505/0.053?51.503,0.065,15,p:cities"⟩),
   ("首尔 ICN", ⟨"ICN", "首尔", "RKSI",
      "https://www.wunderground.com/history/daily/kr/incheon/RKSI",
      "https://www.windy.com/37.464/126.440?37.214,126.440,9,p:cities"⟩)]

/-- The `airport_display` computation (lines 1189–1198). -/
def airportDisplay (airport : String) : String :=
  match dictGet AIRPORTS airport with
  | some info =>
      if info.code ≠ "" ∧ info.name_cn ≠ "" then
        info.code ++ " " ++ info.name_cn ++ " " ++ info.code
      else airport
  | none => airport

/-- `airport_info.get('wunderground_url', 'https://www.wunderground.com')`. -/
def airportWunder (airport : String) : String :=
  match dictGet AIRPORTS airport with
  | some info => info.wunderground_url
  | none => "https://www.wunderground.com"

/-- `airport_info.get('windy_url', 'https://www.windy.com')`. -/
def airportWindy (airport : String) : String :=
  match dictGet AIRPORTS airport with
  | some info => info.windy_url
  | none => "https://www.windy.com"

/-- `wind_direction_to_arrow` (lines 90–122): eight 45° sectors, lower edge
inclusive, wrapping at 360°; the source's decimal bounds as exact rationals. -/
def wind_direction_to_arrow (angle : ℚ) : String :=
  let a := qmod360 angle
  if (0 ≤ a ∧ a < 45/2) ∨ 675/2 ≤ a then "↓"
  else if 45/2 ≤ a ∧ a < 135/2 then "↘"
  else if 135/2 ≤ a ∧ a < 225/2 then "→"
  else if 225/2 ≤ a ∧ a < 315/2 then "↗"
  else if 315/2 ≤ a ∧ a < 405/2 then "↑"
  else if 405/2 ≤ a ∧ a < 495/2 then "↖"
  else if 495/2 ≤ a ∧ a < 585/2 then "←"
  else "↙"

/-- `wind_direction_to_name` (lines 125–165): sixteen 22.5° sectors (bounds in
quarters of a degree), first matching sector wins, the arrow appended; the
source's unreachable fallback is kept. -/
def wind_direction_to_name (angle : ℚ) : String :=
  let a := qmod360 angle
  let name :=
    if 0 ≤ a ∧ a < 45/4 then "北风"
    else if 45/4 ≤ a ∧ a < 135/4 then "北东北风"
    else if 135/4 ≤ a ∧ a < 225/4 then "东北风"
    else if 225/4 ≤ a ∧ a < 315/4 then "东东北风"
    else if 315/4 ≤ a ∧ a < 405/4 then "东风"
    else if 405/4 ≤ a ∧ a < 495/4 then "东东南风"
    else if 495/4 ≤ a ∧ a < 585/4 then "东南风"
    else if 585/4 ≤ a ∧ a < 675/4 then "南东南风"
    else if 675/4 ≤ a ∧ a < 765/4 then "南风"
    else if 765/4 ≤ a ∧ a < 855/4 then "南西南风"
    else if 855/4 ≤ a ∧ a < 945/4 then "西南风"
    else if 945/4 ≤ a ∧ a < 1035/4 then "西西南风"
    else if 1035/4 ≤ a ∧ a < 1125/4 then "西风"
    else if 1125/4 ≤ a ∧ a < 1215/4 then "西西北风"
    else if 1215/4 ≤ a ∧ a < 1305/4 then "西北风"
    else if 1305/4 ≤ a ∧ a < 1395/4 then "北西北风"
    else if 1395/4 ≤ a ∧ a < 360 then "北风"
    else ""
  if name ≠ "" then name ++ wind_direction_to_arrow a else "北风↓"

/-- Python `f"{h:02d}"` for an hour. -/
def fmtHour2 (h : ℕ) : String :=
  if h < 10 then "0" ++ toString h else toString h

/-- The rendered rain/snow classification of an interval. -/
def periodTypeStr (p : Period) : String := if p.is_snow then "雪" else "雨"

/-- One precipitation-interval line of the details block (lines 1282–1289). -/
def precipLineHTML (p : Period) : String :=
  if p.start_hour = p.end_hour then
    "\n     - " ++ fmtHour2 p.start_hour ++ ":00 有" ++ periodTypeStr p
  else
    "\n     - " ++ fmtHour2 p.start_hour ++ ":00 至 " ++ fmtHour2 p.end_hour ++
      ":00 有" ++ periodTypeStr p

/-- The precipitation section of the details block (lines 1279–1291). -/
def precipSectionHTML (ps : List Period) : String :=
  if ps = [] then "\n   • <b>降水:</b> 无降水"
  else "\n   • <b>降水时段:</b>" ++ String.join (ps.map precipLineHTML)

/-- The wind direction and speed lines of the details block (lines 1252–1260):
numeric when a direction is present, explicit markers otherwise. -/
def windLinesHTML (d : Details) : String :=
  match d.wind_direction with
  | some ang =>
      "\n   • <b>风向:</b> " ++ wind_direction_to_name ang ++
        "\n   • <b>风速:</b> " ++
        formatQ1 (meters_per_second_to_miles_per_hour d.wind_speed) ++ " 英里/小时"
  | none =>
      "\n   • <b>风向:</b> " ++ availMarker ++ "\n   • <b>风速:</b> " ++ availMarker

/-- The whole weather-details block (lines 1248–1291): absent details skip the
block entirely. -/
def detailsBlockHTML (wd : Option Details) : String :=
  match wd with
  | none => ""
  | some d =>
      "\n\n🌤️ <b>天气详细信息:</b>" ++ windLinesHTML d ++ gustLineHTML d.max_gust ++
        "\n   • <b>云量:</b> " ++ formatQ0 d.cloudcover ++ "%" ++
        "\n   • <b>天气状况:</b> " ++ d.weather_condition ++
        precipSectionHTML d.precipitation_periods

/-- The Wunderground comparison line (lines 1234–1239). -/
def wundergroundLineHTML (w : Option ℚ) : String :=
  match w with
  | some t =>
      "\n   • <b>Wunderground:</b> " ++ formatQ1 t ++ "°C / " ++
        formatQ1 (celsius_to_fahrenheit t) ++ "°F"
  | none => "\n   • <b>Wunderground:</b> " ++ availMarker

/-- The Windy comparison line (lines 1241–1246). -/
def windyLineHTML (w : Option ℚ) : String :=
  match w with
  | some t =>
      "\n   • <b>Windy:</b> " ++ formatQ1 t ++ "°C / " ++
        formatQ1 (celsius_to_fahrenheit t) ++ "°F"
  | none => "\n   • <b>Windy:</b> " ++ availMarker

/-- The three-reference-values block (lines 1293–1298), always rendered. -/
def refsBlockHTML (max_temp : ℚ) : String :=
  "\n\n📈 <b>三个参考值:</b>" ++
    "\n   • " ++ formatQ1 (max_temp - 1) ++ "°C / " ++
    formatQ1 (celsius_to_fahrenheit (max_temp - 1)) ++ "°F (最高温 -1°C)" ++
    "\n   • " ++ formatQ1 max_temp ++ "°C / " ++
    formatQ1 (celsius_to_fahrenheit max_temp) ++ "°F (最高温)" ++
    "\n   • " ++ formatQ1 (max_temp + 1) ++ "°C / " ++
    formatQ1 (celsius_to_fahrenheit (max_temp + 1)) ++ "°F (最高温 +1°C)"

/-- The year-over-year comparison block (lines 1300–1311): rendered only when
the last-year temperature is present, otherwise nothing at all is emitted. -/
def historyBlockHTML (last_year_temp : Option ℚ) (max_temp : ℚ)
    (last_year_str : String) : String :=
  match last_year_temp with
  | none => ""
  | some ly =>
      "\n\n📅 <b>历史对比:</b>" ++
        "\n   • " ++ last_year_str ++ ": " ++ formatQ1 ly ++ "°C / " ++
        formatQ1 (celsius_to_fahrenheit ly) ++ "°F" ++
        "\n   • 今年对比去年: " ++
        (if 0 < max_temp - ly then "↑"
         else if max_temp - ly < 0 then "↓" else "=") ++ " " ++
        formatQ1 |max_temp - ly| ++ "°C / " ++
        formatQ1 (celsius_to_fahrenheit |max_temp - ly|) ++ "°F"

/-- The N-year range block (lines 1313–1329): rendered only when the aggregate
is present, otherwise nothing at all is emitted. -/
def rangeBlockHTML (hr : Option HistStats) : String :=
  match hr with
  | none => ""
  | some h =>
      "\n\n📊 <b>过去" ++ toString h.years_count ++ "年同一天温度区间:</b>" ++
        "\n   • 最低: " ++ formatQ1 h.min_temp ++ "°C / " ++
        formatQ1 (celsius_to_fahrenheit h.min_temp) ++ "°F" ++
        "\n   • 最高: " ++ formatQ1 h.max_temp ++ "°C / " ++
        formatQ1 (celsius_to_fahrenheit h.max_temp) ++ "°F" ++
        "\n   • 平均: " ++ formatQ1 h.avg_temp ++ "°C / " ++
        formatQ1 (celsius_to_fahrenheit h.avg_temp) ++ "°F"

/-- One forward-looking day's data as consumed by the composer
(lines 1334–1345); every key read with a default is a field here. -/
structure FutureDay where
  max_temp : ℚ
  last_year_temp : Option ℚ
  wind_direction : Option ℚ
  wind_speed : ℚ
  max_gust : ℚ
  cloudcover : ℚ
  weather_condition : String
  precipitation_periods : List Period
deriving DecidableEq, Repr

/-- The `strftime` renderings derived from one future-day key
(lines 1347–1354): the day display and, when the key parses as `YYYY-MM-DD`,
the last-year display; an unparsable key falls back to the raw string and a
`None` that Python would interpolate as the text `None`. -/
def parseDateDisplay (s : String) : String × Option String :=
  match s.toList with
  | [y₁, y₂, y₃, y₄, h₁, m₁, m₂, h₂, d₁, d₂] =>
      if y₁.isDigit && y₂.isDigit && y₃.isDigit && y₄.isDigit && h₁ = '-' &&
          m₁.isDigit && m₂.isDigit && h₂ = '-' && d₁.isDigit && d₂.isDigit then
        (String.mk [m₁, m₂] ++ "月" ++ String.mk [d₁, d₂] ++ "日",
         some (toString ((y₁.toNat - 48) * 1000 + (y₂.toNat - 48) * 100 +
             (y₃.toNat - 48) * 10 + (y₄.toNat - 48) - 1) ++ "年" ++
           String.mk [m₁, m₂] ++ "月" ++ String.mk [d₁, d₂] ++ "日"))
      else (s, none)
  | _ => (s, none)

/-- One rendered future-day section (lines 1356–1402). -/
def futureDayBlockHTML (p : String × FutureDay) : String :=
  "\n\n   <b>" ++ (parseDateDisplay p.1).1 ++ ":</b>" ++
    (match p.2.last_year_temp with
     | some ly =>
         "\n     • <b>最高温度:</b> " ++ formatQ1 p.2.max_temp ++ "°C / " ++
           formatQ1 (celsius_to_fahrenheit p.2.max_temp) ++ "°F (去年" ++
           ((parseDateDisplay p.1).2.getD "None") ++ ": " ++ formatQ1 ly ++
           "°C / " ++ formatQ1 (celsius_to_fahrenheit ly) ++ "°F)"
     | none =>
         "\n     • <b>最高温度:</b> " ++ formatQ1 p.2.max_temp ++ "°C / " ++
           formatQ1 (celsius_to_fahrenheit p.2.max_temp) ++ "°F") ++
    (match p.2.wind_direction with
     | some ang =>
         "\n     • <b>风向:</b> " ++ wind_direction_to_name ang ++
           "\n     • <b>风速:</b> " ++
           formatQ1 (meters_per_second_to_miles_per_hour p.2.wind_speed) ++
           " 英里/小时"
     | none =>
         "\n     • <b>风向:</b> " ++ availMarker ++ "\n     • <b>风速:</b> " ++
           availMarker) ++
    (if 0 < p.2.max_gust then
       "\n     • <b>最大阵风:</b> " ++
         formatQ1 (meters_per_second_to_miles_per_hour p.2.max_gust) ++ " 英里/小时"
     else "\n     • <b>最大阵风:</b> " ++ availMarker) ++
    "\n     • <b>云量:</b> " ++ formatQ0 p.2.cloudcover ++ "%" ++
    "\n     • <b>天气状况:</b> " ++ p.2.weather_condition ++
    (if p.2.precipitation_periods = [] then "\n     • <b>降水:</b> 无降水"
     else "\n     • <b>降水时段:</b>" ++
       String.join (p.2.precipitation_periods.map fun pp =>
         if pp.start_hour = pp.end_hour then
           "\n       - " ++ fmtHour2 pp.start_hour ++ ":00 有" ++ periodTypeStr pp
         else
           "\n       - " ++ fmtHour2 pp.start_hour ++ ":00 至 " ++
             fmtHour2 pp.end_hour ++ ":00 有" ++ periodTypeStr pp))

/-- Stable insertion of a keyed entry (for Python `sorted` over dict keys). -/
def insertByKey (p : String × FutureDay) :
    List (String × FutureDay) → List (String × FutureDay)
  | [] => [p]
  | q :: rest => if p.1 ≤ q.1 then p :: q :: rest else q :: insertByKey p rest

/-- Sort the future-day entries by date key (Python `sorted(keys())`). -/
def sortByKey : List (String × FutureDay) → List (String × FutureDay)
  | [] => []
  | p :: rest => insertByKey p (sortByKey rest)

/-- The future-days block (lines 1331–1402): nothing at all for an empty or
absent table. -/
def futureBlockHTML (fds : List (String × FutureDay)) : String :=
  if fds = [] then ""
  else "\n\n📅 <b>未来3天天气预报:</b>" ++
    String.join ((sortByKey fds).map futureDayBlockHTML)

/-- The fixed head of the message (lines 1221–1232), through the corroboration
headline. -/
def headerHTML (airport : String) (max_temp : ℚ)
    (beijing_time est_time korea_time : String) : String :=
  "\n🌡️ <b>机场天气最高温预测提醒</b>\n\n📍 <b>机场:</b> " ++ airportDisplay airport ++
    "\n🕐 <b>更新时间（北京时间 UTC+8）:</b> " ++ beijing_time ++
    "\n🕐 <b>更新时间（美东时间 EST/EDT）:</b> " ++ est_time ++
    "\n🕐 <b>更新时间（韩国时间 KST UTC+9）:</b> " ++ korea_time ++
    "\n\n📊 <b>当天预测最高温度:</b>\n   " ++ formatQ1 max_temp ++ "°C / " ++
    formatQ1 (celsius_to_fahrenheit max_temp) ++ "°F (Open-Meteo)" ++
    "\n\n🌐 <b>其他数据源对比:</b>"

/-- The closing links block (lines 1404–1414). -/
def linksBlockHTML (airport : String) : String :=
  "\n\n🔗 <b>相关网站链接:</b>\n   • <a href=\"" ++ airportWunder airport ++
    "\">Wunderground 天气</a>\n   • <a href=\"" ++ airportWindy airport ++
    "\">Windy 天气</a>\n    \n⚠️ <i>本程序仅用于信息提醒，不做任何交易决策</i>"

/-- Python `str.strip()` over the character list. -/
def pyStrip (s : String) : String :=
  String.mk (((s.toList.dropWhile Char.isWhitespace).reverse.dropWhile
    Char.isWhitespace).reverse)

/-- `format_temperature_message` (lines 1172–1416): the sequential appends of
the source, then the final `strip`.  The three formatted now-times and the
`last_year_str` label (all read from the ambient clock there) are
parameters. -/
def format_temperature_message (airport : String) (max_temp : ℚ)
    (last_year_temp : Option ℚ) (historical_range : Option HistStats)
    (future_days : List (String × FutureDay))
    (wunderground_temp windy_temp : Option ℚ) (weather_details : Option Details)
    (beijing_time est_time korea_time last_year_str : String) : String :=
  pyStrip
    (headerHTML airport max_temp beijing_time est_time korea_time ++
      wundergroundLineHTML wunderground_temp ++
      windyLineHTML windy_temp ++
      detailsBlockHTML weather_details ++
      refsBlockHTML max_temp ++
      historyBlockHTML last_year_temp max_temp last_year_str ++
      rangeBlockHTML historical_range ++
      futureBlockHTML future_days ++
      linksBlockHTML airport)

/-- Count of (possibly overlapping) occurrences of a pattern in a text. -/
def countSub (pat : List Char) : List Char → ℕ
  | [] => 0
  | c :: rest =>
      (if pat.isPrefixOf (c :: rest) then 1 else 0) + countSub pat rest

/-- Looking an airport up in the freshly built state map gives exactly its
lookup outcome when the airport was processed, and nothing otherwise. -/
theorem lookupTemp_new_map (airports : List String) (outcome : String → Option ℚ)
    (a : String) :
    lookupTemp (airports.filterMap fun b => (outcome b).map fun t => (b, some t)) a =
      if a ∈ airports then outcome a else none := by
  induction airports with
  | nil => simp [lookupTemp, dictGet]
  | cons b rest ih =>
      by_cases hb : b = a
      · subst hb
        cases h : outcome b with
        | none =>
            simp only [List.filterMap_cons, h, Option.map_none']
            rw [ih]
            by_cases hm : b ∈ rest <;> simp [hm, h]
        | some t =>
            simp [List.filterMap_cons, h, lookupTemp, dictGet]
      · cases h : outcome b with
        | none =>
            simp only [List.filterMap_cons, h, Option.map_none']
            rw [ih]
            by_cases hm : a ∈ rest <;> simp [hm, hb, Ne.symm hb]
        | some t =>
            simp only [List.filterMap_cons, h, Option.map_some']
            simp only [lookupTemp, dictGet, if_neg hb]
            rw [← lookupTemp]
            rw [ih]
            by_cases hm : a ∈ rest <;> simp [hm, hb, Ne.symm hb]

/-- On a non-forced same-day evaluation with a stored last temperature, the
decision reduces to the temperature-delta test. -/
theorem shouldSend_same_day (lt t : ℚ) :
    shouldSend false false (some lt) t =
      if 1/10 < |t - lt| then (true, Reason.tempDelta)
      else (false, Reason.noChange) := rfl

/-- The decision's reason is new-day exactly when the run is not forced and the
run-level new-day flag is set, for any location data. -/
theorem shouldSend_snd_newDay (f nd : Bool) (lastt : Option ℚ) (t : ℚ) :
    ((shouldSend f nd lastt t).2 = Reason.newDay) ↔ (f = false ∧ nd = true) := by
  cases f <;> cases nd <;> cases lastt <;>
    simp [shouldSend] <;> split <;> simp_all

/-- C1: on a non-forced run whose persisted last-check date equals today, for a
location with a persisted last peak, a notification is emitted iff
`|today's peak − last peak| > 0.1`; concretely, last peak 20.0 with new peak
20.05 yields no notification, and new peak 20.15 yields one. -/
theorem c1_delta_rule (st : BotState) (current_date a : String) (lt t : ℚ)
    (outcome : String → Option ℚ)
    (hdate : st.last_check_date = some current_date)
    (hlast : lookupTemp st.last_max_temps a = some lt)
    (hout : outcome a = some t) :
    ((processLocation false st current_date outcome a).map (fun r => r.2.1) = some true
        ↔ 1/10 < |t - lt|) ∧
    shouldSend false false (some 20) (401/20) = (false, Reason.noChange) ∧
    shouldSend false false (some 20) (403/20) = (true, Reason.tempDelta) := by
  refine ⟨?_, ?_, ?_⟩
  · have hnd : is_new_day st current_date = false := by
      simp [is_new_day, hdate]
    have hp : processLocation false st current_date outcome a =
        some (t, shouldSend false false (some lt) t) := by
      simp [processLocation, hout, hnd, hlast]
    rw [hp, shouldSend_same_day]
    simp only [one_div]
    by_cases h : (10 : ℚ)⁻¹ < |t - lt|
    · simp [h]
    · simp [h]
  · rw [shouldSend_same_day, if_neg (by norm_num [abs_of_nonneg])]
  · rw [shouldSend_same_day, if_pos (by norm_num [abs_of_nonneg])]

/-- Witness for `c1_delta_rule` at a concrete state and outcome. -/
theorem c1_delta_rule_witness :
    ((processLocation false ⟨[("纽约 LGA", some 20)], some "2026-10-12"⟩ "2026-10-12"
        (fun _ => some (403/20)) "纽约 LGA").map (fun r => r.2.1) = some true
      ↔ 1/10 < |(403/20 : ℚ) - 20|) ∧
    shouldSend false false (some 20) (401/20) = (false, Reason.noChange) ∧
    shouldSend false false (some 20) (403/20) = (true, Reason.tempDelta) :=
  c1_delta_rule ⟨[("纽约 LGA", some 20)], some "2026-10-12"⟩ "2026-10-12"
    "纽约 LGA" 20 (403/20) (fun _ => some (403/20)) rfl (by decide) rfl

/-- C2: on a non-forced run, when the persisted last-check date differs from
today (including a null date), every successfully evaluated location notifies
with reason new-day, whatever its last peak temperature was. -/
theorem c2_new_day (st : BotState) (current_date a : String) (t : ℚ)
    (outcome : String → Option ℚ)
    (hdate : st.last_check_date ≠ some current_date)
    (hout : outcome a = some t) :
    processLocation false st current_date outcome a = some (t, true, Reason.newDay) := by
  have hnd : is_new_day st current_date = true := by
    simp [is_new_day, hdate]
  simp [processLocation, hout, hnd, shouldSend]

/-- Witness for `c2_new_day`: yesterday's check date, big last peak, same new
peak — still notifies with reason new-day. -/
theorem c2_new_day_witness :
    processLocation false ⟨[("纽约 LGA", some 20)], some "2026-10-11"⟩ "2026-10-12"
      (fun _ => some 20) "纽约 LGA" = some (20, true, Reason.newDay) :=
  c2_new_day ⟨[("纽约 LGA", some 20)], some "2026-10-11"⟩ "2026-10-12" "纽约 LGA"
    20 (fun _ => some 20) (by decide) rfl

/-- C3 counterexample: the persisted last-check date is not per-location.  Two
states with identical per-location maps but different shared `last_check_date`
give the same location different new-day decisions, so the decision depends on
a value stored once for all locations, not on per-location data. -/
theorem c3_counterexample :
    (BotState.mk [("纽约 LGA", some 20)] (some "2026-10-12")).last_max_temps =
      (BotState.mk [("纽约 LGA", some 20)] (some "2026-10-11")).last_max_temps ∧
    processLocation false (BotState.mk [("纽约 LGA", some 20)] (some "2026-10-12"))
      "2026-10-12" (fun _ => some 20) "纽约 LGA" = some (20, false, Reason.noChange) ∧
    processLocation false (BotState.mk [("纽约 LGA", some 20)] (some "2026-10-11"))
      "2026-10-12" (fun _ => some 20) "纽约 LGA" = some (20, true, Reason.newDay) := by
  refine ⟨rfl, ?_, ?_⟩
  · have h : lookupTemp (BotState.mk [("纽约 LGA", some 20)]
        (some "2026-10-12")).last_max_temps "纽约 LGA" = some 20 := by decide
    simp [processLocation, is_new_day, h, shouldSend_same_day]
  · simp [processLocation, is_new_day, shouldSend]

/-- C3 amended: the persisted state carries one last peak temperature per
location, but a single last-check date shared by all locations; a location's
decision is a function of its own map entry, the shared date and its own
outcome, and the new-day reason fires for one evaluated location iff it fires
for every other. -/
theorem c3_amended (s₁ s₂ : BotState) (current_date a b : String) (f : Bool)
    (outcome : String → Option ℚ) :
    (lookupTemp s₁.last_max_temps a = lookupTemp s₂.last_max_temps a →
      s₁.last_check_date = s₂.last_check_date →
      processLocation f s₁ current_date outcome a =
        processLocation f s₂ current_date outcome a) ∧
    (∀ ta tb sa ra sb rb,
      processLocation f s₁ current_date outcome a = some (ta, sa, ra) →
      processLocation f s₁ current_date outcome b = some (tb, sb, rb) →
      (ra = Reason.newDay ↔ rb = Reason.newDay)) := by
  constructor
  · intro hm hd
    simp [processLocation, is_new_day, hd, hm]
  · intro ta tb sa ra sb rb ha hb
    simp only [processLocation, Option.map_eq_some'] at ha hb
    obtain ⟨ta', hta, ha⟩ := ha
    obtain ⟨tb', htb, hb⟩ := hb
    have h1 := congrArg (fun p => p.2.2) ha
    have h2 := congrArg (fun p => p.2.2) hb
    simp only at h1 h2
    rw [← h1, ← h2, shouldSend_snd_newDay, shouldSend_snd_newDay]

/-- Witness for `c3_amended` at concrete states and locations. -/
theorem c3_amended_witness :
    (lookupTemp (BotState.mk [("A", some 20)] (some "d")).last_max_temps "A" =
        lookupTemp (BotState.mk [("A", some 20), ("B", none)] (some "d")).last_max_temps "A" →
      (BotState.mk [("A", some 20)] (some "d")).last_check_date =
        (BotState.mk [("A", some 20), ("B", none)] (some "d")).last_check_date →
      processLocation false (BotState.mk [("A", some 20)] (some "d")) "d"
          (fun _ => some 20) "A" =
        processLocation false (BotState.mk [("A", some 20), ("B", none)] (some "d")) "d"
          (fun _ => some 20) "A") ∧
    (∀ ta tb sa ra sb rb,
      processLocation false (BotState.mk [("A", some 20)] (some "d")) "d"
          (fun _ => some 20) "A" = some (ta, sa, ra) →
      processLocation false (BotState.mk [("A", some 20)] (some "d")) "d"
          (fun _ => some 20) "B" = some (tb, sb, rb) →
      (ra = Reason.newDay ↔ rb = Reason.newDay)) :=
  c3_amended (BotState.mk [("A", some 20)] (some "d"))
    (BotState.mk [("A", some 20), ("B", none)] (some "d")) "d" "A" "B" false
    (fun _ => some 20)

/-- C4: after a run, the persisted state is rebuilt from scratch: it does not
depend on the previous state nor on the force flag (hence not on which
notifications went out), its date is today, and its map holds exactly the
airports whose lookup-and-reduction succeeded, each with the fresh peak. -/
theorem c4_state_replacement (airports : List String) (outcome : String → Option ℚ)
    (st st₂ : BotState) (current_date : String) (force f₂ : Bool) (a : String) :
    (check_and_send_alerts airports outcome st current_date force).2 =
      (check_and_send_alerts airports outcome st₂ current_date f₂).2 ∧
    (check_and_send_alerts airports outcome st current_date force).2.last_check_date =
      some current_date ∧
    (a ∈ airports →
      lookupTemp (check_and_send_alerts airports outcome st current_date force).2.last_max_temps a =
        outcome a) ∧
    (a ∉ airports →
      lookupTemp (check_and_send_alerts airports outcome st current_date force).2.last_max_temps a =
        none) := by
  refine ⟨rfl, rfl, ?_, ?_⟩ <;> intro h <;>
    simp [check_and_send_alerts, lookupTemp_new_map, h]

/-- Witness for `c4_state_replacement`: two airports, one failing lookup. -/
theorem c4_state_replacement_witness :
    ("A" ∈ ["A", "B"] ∧
      lookupTemp (check_and_send_alerts ["A", "B"]
          (fun x => if x = "A" then some 21 else none)
          (BotState.mk [("A", some 20), ("B", some 5)] (some "2026-10-11"))
          "2026-10-12" false).2.last_max_temps "A" =
        (fun x => if x = "A" then some (21 : ℚ) else none) "A") ∧
    ("B" ∈ ["A", "B"] ∧
      lookupTemp (check_and_send_alerts ["A", "B"]
          (fun x => if x = "A" then some 21 else none)
          (BotState.mk [("A", some 20), ("B", some 5)] (some "2026-10-11"))
          "2026-10-12" false).2.last_max_temps "B" =
        (fun x => if x = "A" then some (21 : ℚ) else none) "B") ∧
    ("C" ∉ ["A", "B"] ∧
      lookupTemp (check_and_send_alerts ["A", "B"]
          (fun x => if x = "A" then some 21 else none)
          (BotState.mk [("A", some 20), ("B", some 5)] (some "2026-10-11"))
          "2026-10-12" false).2.last_max_temps "C" = none) :=
  ⟨⟨by decide,
    ((c4_state_replacement ["A", "B"] (fun x => if x = "A" then some 21 else none)
      (BotState.mk [("A", some 20), ("B", some 5)] (some "2026-10-11"))
      (BotState.mk [] none) "2026-10-12" false true "A").2.2.1 (by decide))⟩,
   ⟨by decide,
    ((c4_state_replacement ["A", "B"] (fun x => if x = "A" then some 21 else none)
      (BotState.mk [("A", some 20), ("B", some 5)] (some "2026-10-11"))
      (BotState.mk [] none) "2026-10-12" false true "B").2.2.1 (by decide))⟩,
   ⟨by decide,
    ((c4_state_replacement ["A", "B"] (fun x => if x = "A" then some 21 else none)
      (BotState.mk [("A", some 20), ("B", some 5)] (some "2026-10-11"))
      (BotState.mk [] none) "2026-10-12" false true "C").2.2.2 (by decide))⟩⟩

theorem foldl_max_init_le (as : List ℚ) (a : ℚ) : a ≤ as.foldl max a := by
  induction as generalizing a with
  | nil => simp
  | cons b bs ih => exact le_trans (le_max_left a b) (ih (max a b))

theorem foldl_max_mem_le (as : List ℚ) (a x : ℚ) (hx : x ∈ as) :
    x ≤ as.foldl max a := by
  induction as generalizing a with
  | nil => cases hx
  | cons b bs ih =>
      rcases List.mem_cons.mp hx with rfl | hm
      · exact le_trans (le_max_right a x) (foldl_max_init_le bs (max a x))
      · exact ih (max a b) hm

theorem foldl_max_mem (as : List ℚ) (a : ℚ) :
    as.foldl max a = a ∨ as.foldl max a ∈ as := by
  induction as generalizing a with
  | nil => exact Or.inl rfl
  | cons b bs ih =>
      rcases ih (max a b) with h | h
      · rcases max_cases a b with ⟨hm, _⟩ | ⟨hm, _⟩
        · exact Or.inl (by rw [List.foldl_cons, h, hm])
        · exact Or.inr (by rw [List.foldl_cons, h, hm]; exact List.mem_cons_self b bs)
      · exact Or.inr (List.mem_cons_of_mem b h)

theorem maxOfList_mem (l : List ℚ) (h : l ≠ []) : maxOfList l ∈ l := by
  cases l with
  | nil => exact absurd rfl h
  | cons a as =>
      rcases foldl_max_mem as a with h₁ | h₁
      · rw [maxOfList, h₁]; exact List.mem_cons_self a as
      · exact List.mem_cons_of_mem a h₁

theorem le_maxOfList (l : List ℚ) (x : ℚ) (hx : x ∈ l) : x ≤ maxOfList l := by
  cases l with
  | nil => cases hx
  | cons a as =>
      rcases List.mem_cons.mp hx with rfl | hm
      · exact foldl_max_init_le as x
      · exact foldl_max_mem_le as a x hm

/-- When the series is aligned (no index ever out of range) the collector never
raises and returns exactly the spec-side day restriction. -/
theorem collectDay_eq_specDayTemps (day : String) (times : List String)
    (temps : List (Option ℚ)) (h : times.length ≤ temps.length) :
    collectDay day times temps = some (specDayTemps day times temps) := by
  induction times generalizing temps with
  | nil => simp [collectDay, specDayTemps]
  | cons s ss ih =>
      cases temps with
      | nil => simp at h
      | cons t ts =>
          have h₁ : ss.length ≤ ts.length := by simpa using h
          by_cases hp : startswith s day
          · cases t <;>
              simp [collectDay, specDayTemps, hp, ih ts h₁, List.zip_cons_cons]
          · simp [collectDay, specDayTemps, hp, ih ts h₁, List.zip_cons_cons]

/-- C5: for an aligned hourly series, the reduced peak temperature is exactly
the maximum of the non-missing temperature samples of the target day, and it
is absent (never zero) when the day has no non-missing sample. -/
theorem c5_peak_is_max (times : List String) (temps : List (Option ℚ))
    (today : String) (h : times.length = temps.length) :
    (get_today_max_temp times temps today = none ↔
      specDayTemps today times temps = []) ∧
    (∀ t, get_today_max_temp times temps today = some t →
      t ∈ specDayTemps today times temps ∧
        ∀ x ∈ specDayTemps today times temps, x ≤ t) := by
  have hc := collectDay_eq_specDayTemps today times temps (le_of_eq h)
  by_cases he : times = [] ∨ temps = []
  · have hsp : specDayTemps today times temps = [] := by
      rcases he with rfl | rfl
      · simp [specDayTemps]
      · simp [specDayTemps]
    constructor
    · simp [get_today_max_temp, he, hsp]
    · intro t ht
      rw [get_today_max_temp, if_pos he] at ht
      cases ht
  · rw [get_today_max_temp, if_neg he, hc]
    constructor
    · cases hs : specDayTemps today times temps with
      | nil => simp
      | cons a as => simp
    · intro t ht
      cases hs : specDayTemps today times temps with
      | nil => rw [hs] at ht; simp at ht
      | cons a as =>
          rw [hs] at ht
          simp only [Option.some.injEq] at ht
          subst ht
          exact ⟨hs ▸ maxOfList_mem (a :: as) (by simp),
            fun x hx => hs ▸ le_maxOfList (a :: as) x hx⟩

/-- Witness for `c5_peak_is_max` on a three-sample series (one sample of the
previous day, one valid sample, one null sample). -/
theorem c5_peak_is_max_witness :
    (["2026-10-11T23:00", "2026-10-12T00:00", "2026-10-12T01:00"].length =
      [some (5:ℚ), some 7, none].length) ∧
    ((get_today_max_temp ["2026-10-11T23:00", "2026-10-12T00:00", "2026-10-12T01:00"]
        [some (5:ℚ), some 7, none] "2026-10-12" = none ↔
      specDayTemps "2026-10-12" ["2026-10-11T23:00", "2026-10-12T00:00", "2026-10-12T01:00"]
        [some (5:ℚ), some 7, none] = []) ∧
    (∀ t, get_today_max_temp ["2026-10-11T23:00", "2026-10-12T00:00", "2026-10-12T01:00"]
        [some (5:ℚ), some 7, none] "2026-10-12" = some t →
      t ∈ specDayTemps "2026-10-12" ["2026-10-11T23:00", "2026-10-12T00:00", "2026-10-12T01:00"]
          [some (5:ℚ), some 7, none] ∧
        ∀ x ∈ specDayTemps "2026-10-12" ["2026-10-11T23:00", "2026-10-12T00:00", "2026-10-12T01:00"]
            [some (5:ℚ), some 7, none], x ≤ t)) :=
  ⟨by decide,
   c5_peak_is_max ["2026-10-11T23:00", "2026-10-12T00:00", "2026-10-12T01:00"]
     [some (5:ℚ), some 7, none] "2026-10-12" (by decide)⟩

/-- The one-pass scan of the source equals the spec-side filter-then-merge
description, whenever every precipitating sample's hour resolves. -/
theorem periodsLoop_eq_spec (l : List Item) (out : List Period) (cur : Option Period)
    (hp : ∀ it ∈ l, 0 < it.precipitation → (hourOf it.time).isSome) :
    periodsLoop out cur l =
      some (out ++ specMerge cur
        ((l.filter fun it => decide (0 < it.precipitation)).filterMap toPH)) := by
  induction l generalizing out cur with
  | nil => simp [periodsLoop, specMerge]
  | cons it rest ih =>
      have hrest : ∀ x ∈ rest, 0 < x.precipitation → (hourOf x.time).isSome :=
        fun x hx => hp x (List.mem_cons_of_mem _ hx)
      by_cases hpr : 0 < it.precipitation
      · obtain ⟨h, hh⟩ := Option.isSome_iff_exists.mp
          (hp it (List.mem_cons_self _ _) hpr)
        have hph : toPH it = some ⟨h, isSnowCode it.weathercode, it.precipitation⟩ := by
          simp [toPH, hh]
        cases cur with
        | none =>
            have hstep : periodsLoop out none (it :: rest) =
                periodsLoop out
                  (some ⟨h, h, isSnowCode it.weathercode, it.precipitation⟩) rest := by
              simp [periodsLoop, hpr, hh]
            rw [hstep, ih _ _ hrest]
            simp [List.filter_cons, hpr, List.filterMap_cons, hph, specMerge]
        | some c =>
            by_cases hc : c.is_snow = isSnowCode it.weathercode ∧ h = c.end_hour + 1
            · have hstep : periodsLoop out (some c) (it :: rest) =
                  periodsLoop out
                    (some ⟨c.start_hour, h, c.is_snow,
                      max c.max_precip it.precipitation⟩) rest := by
                simp [periodsLoop, hpr, hh, hc]
              rw [hstep, ih _ _ hrest]
              simp [List.filter_cons, hpr, List.filterMap_cons, hph, specMerge, hc]
            · have hstep : periodsLoop out (some c) (it :: rest) =
                  periodsLoop (out ++ [c])
                    (some ⟨h, h, isSnowCode it.weathercode, it.precipitation⟩) rest := by
                simp [periodsLoop, hpr, hh, hc]
              rw [hstep, ih _ _ hrest]
              simp [List.filter_cons, hpr, List.filterMap_cons, hph, specMerge, hc]
      · have hstep : periodsLoop out cur (it :: rest) = periodsLoop out cur rest := by
          simp [periodsLoop, hpr]
        rw [hstep, ih _ _ hrest]
        simp [List.filter_cons, hpr]

/-- C6: the precipitation intervals computed by the source equal the spec-side
ones — classify each positive-precipitation sample snow iff its code is in the
fixed snow set, merge runs of consecutive hours of one classification with the
maximal intensity, close on a gap or a classification change; and concretely,
rain over hours 5–6 and 8–9 of one day (gap at 7) yields the two intervals
[5,6] and [8,9], never one interval spanning 5 to 9. -/
theorem c6_precip_intervals (l : List Item)
    (hp : ∀ it ∈ l, 0 < it.precipitation → (hourOf it.time).isSome) :
    precipitation_periods l =
      some (specIntervals
        ((l.filter fun it => decide (0 < it.precipitation)).filterMap toPH)) ∧
    precipitation_periods
      [⟨"2026-10-12T05:00", 10, none, none, none, 1, some 61, none⟩,
       ⟨"2026-10-12T06:00", 10, none, none, none, 1, some 61, none⟩,
       ⟨"2026-10-12T08:00", 10, none, none, none, 1, some 61, none⟩,
       ⟨"2026-10-12T09:00", 10, none, none, none, 1, some 61, none⟩] =
      some [⟨5, 6, false, 1⟩, ⟨8, 9, false, 1⟩] := by
  constructor
  · simpa [precipitation_periods, specIntervals] using periodsLoop_eq_spec l [] none hp
  · have h5 : hourOf "2026-10-12T05:00" = some 5 := by decide
    have h6 : hourOf "2026-10-12T06:00" = some 6 := by decide
    have h8 : hourOf "2026-10-12T08:00" = some 8 := by decide
    have h9 : hourOf "2026-10-12T09:00" = some 9 := by decide
    have hsnow : isSnowCode (some 61) = false := by decide
    simp [precipitation_periods, periodsLoop, h5, h6, h8, h9, hsnow]

/-- Witness for `c6_precip_intervals` on the concrete rain-gap-rain series. -/
theorem c6_precip_intervals_witness :
    precipitation_periods
      [⟨"2026-10-12T05:00", 10, none, none, none, 1, some 61, none⟩,
       ⟨"2026-10-12T06:00", 10, none, none, none, 1, some 61, none⟩,
       ⟨"2026-10-12T08:00", 10, none, none, none, 1, some 61, none⟩,
       ⟨"2026-10-12T09:00", 10, none, none, none, 1, some 61, none⟩] =
      some (specIntervals
        (([⟨"2026-10-12T05:00", 10, none, none, none, 1, some 61, none⟩,
           ⟨"2026-10-12T06:00", 10, none, none, none, 1, some 61, none⟩,
           ⟨"2026-10-12T08:00", 10, none, none, none, 1, some 61, none⟩,
           ⟨"2026-10-12T09:00", 10, none, none, none, 1, some 61,
             none⟩].filter fun it => decide (0 < it.precipitation)).filterMap toPH)) :=
  (c6_precip_intervals
    [⟨"2026-10-12T05:00", 10, none, none, none, 1, some 61, none⟩,
     ⟨"2026-10-12T06:00", 10, none, none, none, 1, some 61, none⟩,
     ⟨"2026-10-12T08:00", 10, none, none, none, 1, some 61, none⟩,
     ⟨"2026-10-12T09:00", 10, none, none, none, 1, some 61, none⟩]
    (by intro it hit hp; fin_cases hit <;> decide)).1

/-- The per-pair speeds of `valid_wind_data` are the speeds of the items that
carry both wind fields. -/
theorem validWindData_snd (l : List Item) :
    (validWindData l).map Prod.snd = l.filterMap windPairSpeed := by
  induction l with
  | nil => rfl
  | cons it rest ih =>
      cases hdir : it.wind_direction <;> cases hsp : it.wind_speed <;>
        simp_all [validWindData, windPairSpeed, List.filterMap_cons]

/-- Projection of a successful reduction: the summary's average wind speed as
computed by the source. -/
theorem details_wind_speed_eq (sind cosd : ℚ → ℚ) (atan2deg : ℚ → ℚ → ℚ)
    (times : List String) (temps dirs speeds gusts precs : List (Option ℚ))
    (codes : List (Option ℤ)) (covers : List (Option ℚ)) (today : String)
    (d : Details)
    (hd : get_today_weather_details sind cosd atan2deg times temps dirs speeds
        gusts precs codes covers today = some d) :
    d.wind_speed =
      (if validWindData (buildItems today times temps dirs speeds gusts precs codes covers) = []
       then 0
       else sumList ((validWindData (buildItems today times temps dirs speeds gusts precs codes covers)).map Prod.snd) /
         ((validWindData (buildItems today times temps dirs speeds gusts precs codes covers)).length : ℚ)) := by
  simp only [get_today_weather_details] at hd
  split at hd
  · cases hd
  · split at hd
    · cases hd
    · split at hd
      · cases hd
      · injection hd with hd
        subst hd
        rfl

/-- Projection of a successful reduction: the summary's maximal gust as
computed by the source. -/
theorem details_max_gust_eq (sind cosd : ℚ → ℚ) (atan2deg : ℚ → ℚ → ℚ)
    (times : List String) (temps dirs speeds gusts precs : List (Option ℚ))
    (codes : List (Option ℤ)) (covers : List (Option ℚ)) (today : String)
    (d : Details)
    (hd : get_today_weather_details sind cosd atan2deg times temps dirs speeds
        gusts precs codes covers today = some d) :
    d.max_gust =
      (if (buildItems today times temps dirs speeds gusts precs codes covers).filterMap Item.wind_gust = []
       then 0
       else maxOfList ((buildItems today times temps dirs speeds gusts precs codes covers).filterMap Item.wind_gust)) := by
  simp only [get_today_weather_details] at hd
  split at hd
  · cases hd
  · split at hd
    · cases hd
    · split at hd
      · cases hd
      · injection hd with hd
        subst hd
        rfl

/-- C7 counterexample: one hourly sample of the day carrying a temperature and
a wind speed of 10 but no wind direction.  The spec-side arithmetic mean of the
available wind-speed samples is 10, yet the source averages only (direction,
speed) pairs and so reports 0. -/
theorem c7_counterexample :
    ((get_today_weather_details (fun _ => 0) (fun _ => 0) (fun _ _ => 0)
        ["2026-10-12T05:00"] [some 20] [none] [some 10] [none] [none] [none] [none]
        "2026-10-12").map Details.wind_speed) ≠
      some (specAvgWindSpeed "2026-10-12" ["2026-10-12T05:00"] [some 10]) := by
  have hs : startswith "2026-10-12T05:00" "2026-10-12" = true := by decide
  have hleft : (get_today_weather_details (fun _ => 0) (fun _ => 0) (fun _ _ => 0)
      ["2026-10-12T05:00"] [some 20] [none] [some 10] [none] [none] [none] [none]
      "2026-10-12").map Details.wind_speed = some 0 := by
    simp [get_today_weather_details, buildItems, optHead, hs,
      precipitation_periods, periodsLoop, validWindData]
  have hright : specAvgWindSpeed "2026-10-12" ["2026-10-12T05:00"] [some 10] = 10 := by
    simp [specAvgWindSpeed, hs, sumList]
  rw [hleft, hright]
  norm_num

/-- C7 amended: the summary's average wind speed is the arithmetic mean of the
wind-speed samples of those hourly samples of the day that also carry a wind
direction (and a temperature, without which the sample is not part of the day
at all); it is zero when no such sample exists.  Speed samples lacking a
direction are excluded from the mean, contrary to the claim. -/
theorem c7_amended (sind cosd : ℚ → ℚ) (atan2deg : ℚ → ℚ → ℚ)
    (times : List String) (temps dirs speeds gusts precs : List (Option ℚ))
    (codes : List (Option ℤ)) (covers : List (Option ℚ)) (today : String)
    (d : Details)
    (hd : get_today_weather_details sind cosd atan2deg times temps dirs speeds
        gusts precs codes covers today = some d) :
    d.wind_speed =
      (if (buildItems today times temps dirs speeds gusts precs codes covers).filterMap windPairSpeed = []
       then 0
       else sumList ((buildItems today times temps dirs speeds gusts precs codes covers).filterMap windPairSpeed) /
         (((buildItems today times temps dirs speeds gusts precs codes covers).filterMap windPairSpeed).length : ℚ)) := by
  rw [details_wind_speed_eq sind cosd atan2deg times temps dirs speeds gusts precs
    codes covers today d hd]
  rw [← validWindData_snd]
  by_cases hv : validWindData (buildItems today times temps dirs speeds gusts precs codes covers) = []
  · simp [hv]
  · have h₂ : (validWindData (buildItems today times temps dirs speeds gusts precs codes covers)).map Prod.snd ≠ [] := by
      simpa using hv
    rw [if_neg hv, if_neg h₂, List.length_map]

/-- Witness for `c7_amended` at the counterexample's concrete input. -/
theorem c7_amended_witness :
    (get_today_weather_details (fun _ => 0) (fun _ => 0) (fun _ _ => 0)
        ["2026-10-12T05:00"] [some 20] [none] [some 10] [none] [none] [none] [none]
        "2026-10-12" =
      some ⟨20, none, 0, 0, 0, [], "未知"⟩) ∧
    (⟨20, none, 0, 0, 0, [], "未知"⟩ : Details).wind_speed =
      (if (buildItems "2026-10-12" ["2026-10-12T05:00"] [some 20] [none] [some 10] [none] [none] [none] [none]).filterMap windPairSpeed = []
       then 0
       else sumList ((buildItems "2026-10-12" ["2026-10-12T05:00"] [some 20] [none] [some 10] [none] [none] [none] [none]).filterMap windPairSpeed) /
         (((buildItems "2026-10-12" ["2026-10-12T05:00"] [some 20] [none] [some 10] [none] [none] [none] [none]).filterMap windPairSpeed).length : ℚ)) := by
  have hs : startswith "2026-10-12T05:00" "2026-10-12" = true := by decide
  have hd : get_today_weather_details (fun _ => (0:ℚ)) (fun _ => (0:ℚ)) (fun _ _ => (0:ℚ))
      ["2026-10-12T05:00"] [some 20] [none] [some 10] [none] [none] [none] [none]
      "2026-10-12" = some ⟨20, none, 0, 0, 0, [], "未知"⟩ := by
    simp [get_today_weather_details, buildItems, optHead, hs, precipitation_periods,
      periodsLoop, validWindData, maxOfList, weatherCounts, pickMostCommon]
  exact ⟨hd, c7_amended (fun _ => 0) (fun _ => 0) (fun _ _ => 0)
    ["2026-10-12T05:00"] [some 20] [none] [some 10] [none] [none] [none] [none]
    "2026-10-12" ⟨20, none, 0, 0, 0, [], "未知"⟩ hd⟩

/-- With an empty gust array, every assembled item's gust field is null. -/
theorem buildItems_gust_none (today : String) (times : List String)
    (temps dirs speeds precs : List (Option ℚ)) (codes : List (Option ℤ))
    (covers : List (Option ℚ)) :
    ∀ it ∈ buildItems today times temps dirs speeds [] precs codes covers,
      it.wind_gust = none := by
  induction times generalizing temps dirs speeds precs codes covers with
  | nil => intro it h; cases h
  | cons s ss ih =>
      intro it h
      simp only [buildItems] at h
      split at h
      · split at h
        · rcases List.mem_cons.mp h with rfl | hm
          · rfl
          · exact ih _ _ _ _ _ _ it hm
        · exact ih _ _ _ _ _ _ it h
      · exact ih _ _ _ _ _ _ it h

/-- C10: when every available gust sample of the day equals zero, the reducer's
maximal gust is 0 — the same value it produces for a day carrying no gust
samples at all — and the composer's gust line is the explicit unavailable
marker, never a numeric value. -/
theorem c10_zero_gusts (sind cosd : ℚ → ℚ) (atan2deg : ℚ → ℚ → ℚ)
    (times : List String) (temps dirs speeds gusts precs : List (Option ℚ))
    (codes : List (Option ℤ)) (covers : List (Option ℚ)) (today : String)
    (hz : ∀ it ∈ buildItems today times temps dirs speeds gusts precs codes covers,
      ∀ g, it.wind_gust = some g → g = 0) :
    (∀ d, get_today_weather_details sind cosd atan2deg times temps dirs speeds
        gusts precs codes covers today = some d →
      d.max_gust = 0 ∧
        gustLineHTML d.max_gust = "\n   • <b>最大阵风:</b> " ++ availMarker) ∧
    (∀ d₂, get_today_weather_details sind cosd atan2deg times temps dirs speeds
        [] precs codes covers today = some d₂ →
      d₂.max_gust = 0) := by
  constructor
  · intro d hd
    have hmg := details_max_gust_eq sind cosd atan2deg times temps dirs speeds gusts
      precs codes covers today d hd
    have hall : ∀ g ∈ (buildItems today times temps dirs speeds gusts precs codes covers).filterMap Item.wind_gust,
        g = 0 := by
      intro g hg
      obtain ⟨it, hit, hgu⟩ := List.mem_filterMap.mp hg
      exact hz it hit g hgu
    have hzero : d.max_gust = 0 := by
      rw [hmg]
      by_cases hv : (buildItems today times temps dirs speeds gusts precs codes covers).filterMap Item.wind_gust = []
      · rw [if_pos hv]
      · rw [if_neg hv]
        exact hall _ (maxOfList_mem _ hv)
    refine ⟨hzero, ?_⟩
    rw [hzero, gustLineHTML, if_neg (by norm_num)]
  · intro d₂ hd₂
    have hmg := details_max_gust_eq sind cosd atan2deg times temps dirs speeds []
      precs codes covers today d₂ hd₂
    have hnil : (buildItems today times temps dirs speeds [] precs codes covers).filterMap Item.wind_gust = [] := by
      rw [List.filterMap_eq_nil_iff]
      exact buildItems_gust_none today times temps dirs speeds precs codes covers
    rw [hmg, if_pos hnil]

/-- Witness for `c10_zero_gusts`: one sample with an explicit zero gust, and
the same day without any gust array. -/
theorem c10_zero_gusts_witness :
    (∀ d, get_today_weather_details (fun _ => (0:ℚ)) (fun _ => (0:ℚ)) (fun _ _ => (0:ℚ))
        ["2026-10-12T05:00"] [some 20] [none] [none] [some 0] [none] [none] [none]
        "2026-10-12" = some d →
      d.max_gust = 0 ∧
        gustLineHTML d.max_gust = "\n   • <b>最大阵风:</b> " ++ availMarker) ∧
    (∀ d₂, get_today_weather_details (fun _ => (0:ℚ)) (fun _ => (0:ℚ)) (fun _ _ => (0:ℚ))
        ["2026-10-12T05:00"] [some 20] [none] [none] [] [none] [none] [none]
        "2026-10-12" = some d₂ →
      d₂.max_gust = 0) :=
  c10_zero_gusts (fun _ => 0) (fun _ => 0) (fun _ _ => 0)
    ["2026-10-12T05:00"] [some 20] [none] [none] [some 0] [none] [none] [none]
    "2026-10-12"
    (by
      intro it hit g hg
      have hs : startswith "2026-10-12T05:00" "2026-10-12" = true := by decide
      simp [buildItems, optHead, hs] at hit
      subst hit
      simp at hg
      exact hg.symm)

/-- Under aligned arrays, a year's loop iteration never raises and computes
exactly the spec-side isolated lookup of that year. -/
theorem yearStep_eq (dates : ℕ → String) (fetch : ℕ → Option HourlyResp)
    (halign : ∀ k r, fetch k = some r → r.times.length ≤ r.temps.length)
    (k : ℕ) :
    yearStep dates fetch k = some (specYearPeak dates fetch k) := by
  cases hf : fetch k with
  | none => simp [yearStep, specYearPeak, hf]
  | some r =>
      have hc := collectDay_eq_specDayTemps (dates k) r.times r.temps
        (halign k r hf)
      by_cases he : r.times = [] ∨ r.temps = []
      · have htnil : r.times = [] := by
          rcases he with h | h
          · exact h
          · have := halign k r hf
            rw [h] at this
            simpa using List.length_eq_zero.mp (Nat.le_zero.mp this)
        have hsp : specDayTemps (dates k) r.times r.temps = [] := by
          simp [specDayTemps, htnil]
        simp [yearStep, specYearPeak, hf, he, hsp]
      · rw [yearStep, hf]
        simp only [if_neg he]
        rw [hc]
        cases hs : specDayTemps (dates k) r.times r.temps with
        | nil => simp [specYearPeak, hf, hs]
        | cons a as => simp [specYearPeak, hf, hs]

/-- Under aligned arrays, the year loop collects exactly the spec-side
successful yearly peaks, in order. -/
theorem histCollect_eq (dates : ℕ → String) (fetch : ℕ → Option HourlyResp)
    (halign : ∀ k r, fetch k = some r → r.times.length ≤ r.temps.length)
    (ks : List ℕ) :
    histCollect dates fetch ks =
      some (ks.filterMap (specYearPeak dates fetch)) := by
  induction ks with
  | nil => rfl
  | cons k ks ih =>
      have hy := yearStep_eq dates fetch halign k
      cases hpk : specYearPeak dates fetch k with
      | none =>
          rw [hpk] at hy
          simp [histCollect, hy, ih, List.filterMap_cons, hpk]
      | some t =>
          rw [hpk] at hy
          simp [histCollect, hy, ih, List.filterMap_cons, hpk]

/-- C8: for the N-year range over aligned responses, each year's lookup is
isolated — a failed, empty or useless year is merely skipped — and the
aggregate is min/max/mean/count over exactly the years that produced a peak;
with zero successful years the whole aggregate is absent, never zero-filled. -/
theorem c8_year_range (dates : ℕ → String) (fetch : ℕ → Option HourlyResp)
    (years : ℕ)
    (halign : ∀ k r, fetch k = some r → r.times.length ≤ r.temps.length) :
    get_historical_temp_range dates fetch years =
      (if ((List.range years).map fun i => i + 1).filterMap (specYearPeak dates fetch) = []
       then none
       else some
         ⟨minOfList (((List.range years).map fun i => i + 1).filterMap (specYearPeak dates fetch)),
          maxOfList (((List.range years).map fun i => i + 1).filterMap (specYearPeak dates fetch)),
          sumList (((List.range years).map fun i => i + 1).filterMap (specYearPeak dates fetch)) /
            ((((List.range years).map fun i => i + 1).filterMap (specYearPeak dates fetch)).length : ℚ),
          (((List.range years).map fun i => i + 1).filterMap (specYearPeak dates fetch)).length⟩) := by
  rw [get_historical_temp_range, histCollect_eq dates fetch halign]
  cases hs : ((List.range years).map fun i => i + 1).filterMap (specYearPeak dates fetch) with
  | nil => simp
  | cons a as => simp

/-- Witness for `c8_year_range`: two requested years, the second year's fetch
fails, the first contributes peak 15. -/
theorem c8_year_range_witness :
    (∀ k r, (fun n => if n = 1 then some (HourlyResp.mk ["2025-10-12T00:00"] [some 15]) else none) k = some r →
      r.times.length ≤ r.temps.length) ∧
    get_historical_temp_range (fun k => if k = 1 then "2025-10-12" else "2024-10-12")
        (fun n => if n = 1 then some (HourlyResp.mk ["2025-10-12T00:00"] [some 15]) else none) 2 =
      (if ((List.range 2).map fun i => i + 1).filterMap
            (specYearPeak (fun k => if k = 1 then "2025-10-12" else "2024-10-12")
              (fun n => if n = 1 then some (HourlyResp.mk ["2025-10-12T00:00"] [some 15]) else none)) = []
       then none
       else some
         ⟨minOfList (((List.range 2).map fun i => i + 1).filterMap
            (specYearPeak (fun k => if k = 1 then "2025-10-12" else "2024-10-12")
              (fun n => if n = 1 then some (HourlyResp.mk ["2025-10-12T00:00"] [some 15]) else none))),
          maxOfList (((List.range 2).map fun i => i + 1).filterMap
            (specYearPeak (fun k => if k = 1 then "2025-10-12" else "2024-10-12")
              (fun n => if n = 1 then some (HourlyResp.mk ["2025-10-12T00:00"] [some 15]) else none))),
          sumList (((List.range 2).map fun i => i + 1).filterMap
            (specYearPeak (fun k => if k = 1 then "2025-10-12" else "2024-10-12")
              (fun n => if n = 1 then some (HourlyResp.mk ["2025-10-12T00:00"] [some 15]) else none))) /
            ((((List.range 2).map fun i => i + 1).filterMap
              (specYearPeak (fun k => if k = 1 then "2025-10-12" else "2024-10-12")
                (fun n => if n = 1 then some (HourlyResp.mk ["2025-10-12T00:00"] [some 15]) else none))).length : ℚ),
          (((List.range 2).map fun i => i + 1).filterMap
            (specYearPeak (fun k => if k = 1 then "2025-10-12" else "2024-10-12")
              (fun n => if n = 1 then some (HourlyResp.mk ["2025-10-12T00:00"] [some 15]) else none))).length⟩) := by
  have halign : ∀ k r, (fun n => if n = 1 then some (HourlyResp.mk ["2025-10-12T00:00"] [some 15]) else none) k = some r →
      r.times.length ≤ r.temps.length := by
    intro k r h
    by_cases hk : k = 1
    · simp only [hk, if_pos] at h
      injection h with h
      subst h
      decide
    · simp [hk] at h
  exact ⟨halign, c8_year_range
    (fun k => if k = 1 then "2025-10-12" else "2024-10-12")
    (fun n => if n = 1 then some (HourlyResp.mk ["2025-10-12T00:00"] [some 15]) else none)
    2 halign⟩

set_option maxRecDepth 100000 in
/-- C9 counterexample: composing the end-to-end scenario (peak 18.3 °C, every
optional input absent) yields a message in which the data-unavailable marker
appears exactly twice — the Wunderground and Windy lines — while the absent
same-day-last-year comparison, N-year range, future-day and weather-details
blocks leave no heading and no marker at all: they are silently omitted,
contradicting the claim that every missing optional block renders a marker. -/
theorem c9_counterexample :
    countSub availMarker.toList
      (format_temperature_message "纽约 LGA" (183/10) none none [] none none none
        "2026-10-12 20:00:00" "2026-10-12 08:00:00" "2026-10-12 21:00:00"
        "2025年10月12日").toList = 2 ∧
    countSub "历史对比".toList
      (format_temperature_message "纽约 LGA" (183/10) none none [] none none none
        "2026-10-12 20:00:00" "2026-10-12 08:00:00" "2026-10-12 21:00:00"
        "2025年10月12日").toList = 0 ∧
    countSub "温度区间".toList
      (format_temperature_message "纽约 LGA" (183/10) none none [] none none none
        "2026-10-12 20:00:00" "2026-10-12 08:00:00" "2026-10-12 21:00:00"
        "2025年10月12日").toList = 0 ∧
    countSub "未来3天".toList
      (format_temperature_message "纽约 LGA" (183/10) none none [] none none none
        "2026-10-12 20:00:00" "2026-10-12 08:00:00" "2026-10-12 21:00:00"
        "2025年10月12日").toList = 0 ∧
    countSub "天气详细信息".toList
      (format_temperature_message "纽约 LGA" (183/10) none none [] none none none
        "2026-10-12 20:00:00" "2026-10-12 08:00:00" "2026-10-12 21:00:00"
        "2025年10月12日").toList = 0 := by
  have e₁ : formatQ1 ((183:ℚ)/10) = "18.3" := by norm_num [formatQ1, rhe]; decide
  have e₂ : formatQ1 (celsius_to_fahrenheit ((183:ℚ)/10)) = "64.9" := by
    norm_num [formatQ1, rhe, celsius_to_fahrenheit]; decide
  have e₃ : formatQ1 ((183:ℚ)/10 - 1) = "17.3" := by norm_num [formatQ1, rhe]; decide
  have e₄ : formatQ1 (celsius_to_fahrenheit ((183:ℚ)/10 - 1)) = "63.1" := by
    norm_num [formatQ1, rhe, celsius_to_fahrenheit]; decide
  have e₅ : formatQ1 ((183:ℚ)/10 + 1) = "19.3" := by norm_num [formatQ1, rhe]; decide
  have e₆ : formatQ1 (celsius_to_fahrenheit ((183:ℚ)/10 + 1)) = "66.7" := by
    norm_num [formatQ1, rhe, celsius_to_fahrenheit]; decide
  simp only [format_temperature_message, headerHTML, wundergroundLineHTML,
    windyLineHTML, detailsBlockHTML, refsBlockHTML, historyBlockHTML,
    rangeBlockHTML, futureBlockHTML, linksBlockHTML, airportDisplay,
    airportWunder, airportWindy, e₁, e₂, e₃, e₄, e₅, e₆]
  refine ⟨?_, ?_, ?_, ?_, ?_⟩ <;> decide

/-- C9 amended: the two corroborating-source temperatures render the explicit
data-unavailable marker when absent, and so do the wind-direction/speed lines
and the max-gust line inside a present weather-details block; but an absent
weather-details block, an absent same-day-last-year comparison, an absent
N-year range and an empty forward-looking table contribute no text at all —
they are silently omitted with no marker. -/
theorem c9_amended :
    (wundergroundLineHTML none = "\n   • <b>Wunderground:</b> " ++ availMarker) ∧
    (windyLineHTML none = "\n   • <b>Windy:</b> " ++ availMarker) ∧
    (∀ d : Details, d.wind_direction = none →
      windLinesHTML d =
        "\n   • <b>风向:</b> " ++ availMarker ++ "\n   • <b>风速:</b> " ++ availMarker) ∧
    (∀ g : ℚ, g ≤ 0 →
      gustLineHTML g = "\n   • <b>最大阵风:</b> " ++ availMarker) ∧
    (∀ (m : ℚ) (s : String), historyBlockHTML none m s = "") ∧
    (rangeBlockHTML none = "") ∧
    (futureBlockHTML [] = "") ∧
    (detailsBlockHTML none = "") := by
  refine ⟨rfl, rfl, ?_, ?_, fun m s => rfl, rfl, rfl, rfl⟩
  · intro d h
    simp [windLinesHTML, h]
  · intro g h
    simp [gustLineHTML, not_lt.mpr h]

/-- Witness for `c9_amended` at a concrete details record and gust value. -/
theorem c9_amended_witness :
    ((⟨0, none, 0, 0, 0, [], "未知"⟩ : Details).wind_direction = none ∧
      windLinesHTML ⟨0, none, 0, 0, 0, [], "未知"⟩ =
        "\n   • <b>风向:</b> " ++ availMarker ++ "\n   • <b>风速:</b> " ++ availMarker) ∧
    ((0:ℚ) ≤ 0 ∧
      gustLineHTML 0 = "\n   • <b>最大阵风:</b> " ++ availMarker) :=
  ⟨⟨rfl, c9_amended.2.2.1 ⟨0, none, 0, 0, 0, [], "未知"⟩ rfl⟩,
   ⟨le_refl 0, c9_amended.2.2.2.1 0 (le_refl 0)⟩⟩
